import Mathlib

/-!
Verification development for the agent pipeline of the repository
(src/app/services/agent_service.py and src/app/models/schemas.py).

The Python code is shallowly embedded: pure string manipulation is
translated to executable Lean functions on `String`/`List Char`; the
language-model client and the tabular data source are external
collaborators and are modelled as oracles (a call-indexed function for the
client, an `Except`-valued value for the data source); Python exceptions
are modelled with `Except`, and a `try/except` handler corresponds to a
`match` on that `Except`.
-/

deriving instance DecidableEq for Except

namespace AgentService

/-- Python str.strip / \s-whitespace for the ASCII range
(space, tab, newline, carriage return, vertical tab, form feed). -/
def isPySpace (c : Char) : Bool :=
  c = ' ' || c = '\t' || c = '\n' || c = '\r' || c = '\x0b' || c = '\x0c'

/-- Python `s.strip()` : drop leading and trailing whitespace. -/
def pyStrip (s : String) : String :=
  String.mk (((s.data.dropWhile isPySpace).reverse.dropWhile isPySpace).reverse)

/-- Python `s.lower()` (ASCII case folding; the CJK characters involved
have no case). -/
def pyLower (s : String) : String :=
  String.mk (s.data.map Char.toLower)

/-- Python `s[:n]` on a `str`: the first `n` code points. -/
def pyTake (n : Nat) (s : String) : String :=
  String.mk (s.data.take n)

-- =========================
-- schemas.OptimizationItem (src/app/models/schemas.py, lines 133-161)
-- =========================

/-- The denylist of `check_not_empty_or_meaningless`. -/
def invalidKeywords : List String := ["無", "n/a", "未知", "none", "unknown"]

structure OptimizationItem where
  target : String
  action : String
  outcome : String
deriving Repr, DecidableEq

/-- One pydantic field of OptimizationItem: the core `min_length`
constraint runs on the raw input first; then the `field_validator`
(mode "after") strips the value, rejects denylisted content
case-insensitively, and returns the stripped value, which is what gets
stored.  The error payloads abbreviate pydantic's renderings. -/
def checkField (minLen : Nat) (raw : String) : Except String String :=
  if raw.length < minLen then
    .error ("String should have at least " ++ toString minLen ++ " characters")
  else
    let v := pyStrip raw
    if invalidKeywords.contains (pyLower v) then
      .error ("Value error, 欄位內容無效: '" ++ v ++ "'，請提供具體建議")
    else
      .ok v

/-- `OptimizationItem(target=..., action=..., outcome=...)`: pydantic
validates the fields in declaration order; the first failure is the one
surfaced by `e.errors()[0]`. -/
def OptimizationItem.make (target action outcome : String) :
    Except String OptimizationItem := do
  let t ← checkField 2 target
  let a ← checkField 5 action
  let o ← checkField 2 outcome
  return ⟨t, a, o⟩

-- =========================
-- QualityEvaluation and agent_service.OptimizationAgent._evaluate_quality
-- (src/app/services/agent_service.py, lines 203-266)
-- =========================

structure QualityEvaluation where
  score : Int
  critique : String
  passed : Bool
deriving Repr, DecidableEq

/-- The fallback returned by the `except` handler of `_evaluate_quality`. -/
def fallbackEval : QualityEvaluation := ⟨0, "評分解析失敗", false⟩

/-- `re.search(r"\x7b.*?\x7d", raw, re.DOTALL)`: the leftmost-shortest
match runs from the first brace-open character to the first brace-close
character after it (DOTALL lets it span newlines; laziness stops it at the
very first closer, even inside a nested object). -/
def extractFirstJson (s : String) : Option String :=
  match s.data.dropWhile (fun c => !(c = '\x7b')) with
  | [] => none
  | _ :: rest =>
    let body := rest.takeWhile (fun c => !(c = '\x7d'))
    if body.length = rest.length then none
    else some (String.mk ('\x7b' :: (body ++ ['\x7d'])))

/-- Values produced by `json.loads` (integer numerals only: the grader
contract and all claims use integer scores). -/
inductive Json where
  | null : Json
  | bool (b : Bool) : Json
  | num (n : Int) : Json
  | str (s : String) : Json
  | arr (xs : List Json) : Json
  | obj (kvs : List (String × Json)) : Json

/-- JSON insignificant whitespace. -/
def isJsonWs (c : Char) : Bool :=
  c = ' ' || c = '\t' || c = '\n' || c = '\r'

/-- Body of a JSON string literal after the opening quote: returns the
decoded content and the input after the closing quote (basic escapes;
no surrogate pairs). -/
def strChars : List Char → Option (List Char × List Char)
  | [] => none
  | '"' :: rest => some ([], rest)
  | '\\' :: e :: rest =>
    let dec : Option Char :=
      if e = '"' then some '"'
      else if e = '\\' then some '\\'
      else if e = '/' then some '/'
      else if e = 'n' then some '\n'
      else if e = 't' then some '\t'
      else if e = 'r' then some '\r'
      else if e = 'b' then some '\x08'
      else if e = 'f' then some '\x0c'
      else none
    match dec with
    | none => none
    | some c => (strChars rest).map (fun p => (c :: p.1, p.2))
  | c :: rest => (strChars rest).map (fun p => (c :: p.1, p.2))

/-- A JSON integer numeral: optional minus sign then one or more digits.
A fractional or exponent suffix is left in the remainder and thus makes
the enclosing parse fail. -/
def parseNumber (cs : List Char) : Option (Json × List Char) :=
  let (neg, cs1) := match cs with
    | '-' :: rest => (true, rest)
    | _ => (false, cs)
  let ds := cs1.takeWhile Char.isDigit
  if ds.isEmpty then none
  else
    let n : Nat := ds.foldl (fun acc c => acc * 10 + (c.toNat - 48)) 0
    some (.num (if neg then -(n : Int) else (n : Int)), cs1.drop ds.length)

mutual

def parseValue : Nat → List Char → Option (Json × List Char)
  | 0, _ => none
  | fuel + 1, cs =>
    match cs.dropWhile isJsonWs with
    | '"' :: rest => (strChars rest).map (fun p => (.str (String.mk p.1), p.2))
    | '\x7b' :: rest =>
      (match rest.dropWhile isJsonWs with
       | '\x7d' :: rest2 => some (.obj [], rest2)
       | _ => parseMembers fuel rest [])
    | '[' :: rest =>
      (match rest.dropWhile isJsonWs with
       | ']' :: rest2 => some (.arr [], rest2)
       | _ => parseElements fuel rest [])
    | 't' :: 'r' :: 'u' :: 'e' :: rest => some (.bool true, rest)
    | 'f' :: 'a' :: 'l' :: 's' :: 'e' :: rest => some (.bool false, rest)
    | 'n' :: 'u' :: 'l' :: 'l' :: rest => some (.null, rest)
    | other => parseNumber other

def parseMembers : Nat → List Char → List (String × Json) →
    Option (Json × List Char)
  | 0, _, _ => none
  | fuel + 1, cs, acc =>
    match cs.dropWhile isJsonWs with
    | '"' :: rest =>
      match strChars rest with
      | none => none
      | some (key, rest1) =>
        match rest1.dropWhile isJsonWs with
        | ':' :: rest2 =>
          match parseValue fuel rest2 with
          | none => none
          | some (v, rest3) =>
            let acc1 := acc ++ [(String.mk key, v)]
            match rest3.dropWhile isJsonWs with
            | ',' :: rest4 => parseMembers fuel rest4 acc1
            | '\x7d' :: rest4 => some (.obj acc1, rest4)
            | _ => none
        | _ => none
    | _ => none

def parseElements : Nat → List Char → List Json → Option (Json × List Char)
  | 0, _, _ => none
  | fuel + 1, cs, acc =>
    match parseValue fuel cs with
    | none => none
    | some (v, rest) =>
      let acc1 := acc ++ [v]
      match rest.dropWhile isJsonWs with
      | ',' :: rest1 => parseElements fuel rest1 acc1
      | ']' :: rest1 => some (.arr acc1, rest1)
      | _ => none

end

/-- `json.loads`: one JSON value, then nothing but whitespace. -/
def jsonLoads (s : String) : Option Json :=
  match parseValue (s.length + 1) s.data with
  | some (v, rest) => if (rest.dropWhile isJsonWs).isEmpty then some v else none
  | none => none

/-- `dict.get(key, default)` on a decoded object; a duplicated key keeps
its last value, as in a Python dict built by `json.loads`. -/
def Json.getKey (j : Json) (key : String) : Option Json :=
  match j with
  | .obj kvs => (kvs.reverse.find? (fun kv => kv.1 = key)).map (fun kv => kv.2)
  | _ => none

/-- Python `int(x)` on a decoded JSON value; `none` models the raised
`TypeError`/`ValueError`. -/
def pyInt (j : Json) : Option Int :=
  match j with
  | .num n => some n
  | .bool b => some (if b then 1 else 0)
  | .str s =>
    let t := (pyStrip s).data
    let (neg, ds) := match t with
      | '-' :: rest => (true, rest)
      | '+' :: rest => (false, rest)
      | _ => (false, t)
    if ds.isEmpty || !(ds.all Char.isDigit) then none
    else
      let n : Nat := ds.foldl (fun acc c => acc * 10 + (c.toNat - 48)) 0
      some (if neg then -(n : Int) else (n : Int))
  | _ => none

/-- The parsing half of `OptimizationAgent._evaluate_quality`, applied to
the grader's raw output: strip, extract the first regex-matched JSON
fragment, `json.loads` it, read `score` (default 0, coerced with `int`)
and `critique` (default the empty string, which pydantic requires to be a
string), and set `passed = score >= 80`.  Every failure lands in the
`except` handler, i.e. `fallbackEval`. -/
def evalFromRaw (output : String) : QualityEvaluation :=
  let raw := pyStrip output
  match extractFirstJson raw with
  | none => fallbackEval
  | some frag =>
    match jsonLoads frag with
    | none => fallbackEval
    | some data =>
      match data with
      | .obj _ =>
        match pyInt ((data.getKey "score").getD (.num 0)) with
        | none => fallbackEval
        | some score =>
          match (data.getKey "critique").getD (.str "") with
          | .str c => ⟨score, c, decide (80 ≤ score)⟩
          | _ => fallbackEval
      | _ => fallbackEval

-- =========================
-- OptimizationAgent._parse_and_validate
-- (src/app/services/agent_service.py, lines 268-304)
-- =========================

/-- Does `small` start `cs`? -/
def startsWith (small cs : List Char) : Bool :=
  small.isPrefixOf cs

/-- The numeric part of the block delimiter `\d+\.\s+`, positioned right
at the digits: one or more digits, a dot, then a greedy run of one or
more whitespace characters; returns the remainder after that run. -/
def tryNum (cs : List Char) : Option (List Char) :=
  let ds := cs.takeWhile Char.isDigit
  if ds.isEmpty then none
  else
    match cs.drop ds.length with
    | '.' :: rest =>
      let ws := rest.takeWhile isPySpace
      if ws.isEmpty then none else some (rest.drop ws.length)
    | _ => none

/-- Scanner for `re.split(r"(?:^|\n)\d+\.\s+", text)` after the optional
match at position 0 has been handled: a delimiter inside the text starts
at a newline that was not consumed by a previous match.  `fuel` bounds
recursion (the input shrinks by at least one character per step). -/
def splitCore (fuel : Nat) (acc cs : List Char) : List (List Char) :=
  match fuel, cs with
  | _, [] => [acc.reverse]
  | 0, rest => [acc.reverse ++ rest]
  | fuel + 1, c :: rest =>
    if c = '\n' then
      match tryNum rest with
      | some rest1 => acc.reverse :: splitCore fuel [] rest1
      | none => splitCore fuel (c :: acc) rest
    else splitCore fuel (c :: acc) rest

/-- `re.split(r"(?:^|\n)\d+\.\s+", text)`: the `^` alternative (no
MULTILINE flag) only fires at position 0 and yields a leading empty
piece. -/
def splitNumbered (text : String) : List String :=
  let cs := text.data
  let pieces :=
    match tryNum cs with
    | some rest => [] :: splitCore rest.length [] rest
    | none => splitCore cs.length [] cs
  pieces.map String.mk

/-- `blocks = [b.strip() for b in blocks if b.strip()]`. -/
def splitBlocks (text : String) : List String :=
  ((splitNumbered text).map pyStrip).filter (fun b => !(b = ""))

/-- The three label keywords of the per-block regexes. -/
def kwTarget : List Char := "目標對象".data
def kwAction : List Char := "行動方案".data
def kwOutcome : List Char := "預期成效".data

/-- A half-width or full-width colon, `[:：]`. -/
def isColon (c : Char) : Bool := c = ':' || c = '：'

/-- After the keyword: the optional closer `(?:\]|\*\*)?` followed by the
colon class, with the regex backtracking order (a closer alternative is
kept only if a colon follows it). -/
def closerColon (cs : List Char) : Option (List Char) :=
  match cs with
  | ']' :: c :: rest => if isColon c then some rest else colonOnly cs
  | '*' :: '*' :: c :: rest => if isColon c then some rest else colonOnly cs
  | _ => colonOnly cs
where
  colonOnly : List Char → Option (List Char)
    | c :: rest => if isColon c then some rest else none
    | [] => none

/-- One anchor position of `(?:\[|\*\*|^)?kw(?:\]|\*\*)?[:：]`: the
opener alternatives are tried in order and the zero-width `^` or empty
alternative reduces to matching the keyword directly. -/
def labelHere (kw cs : List Char) : Option (List Char) :=
  if startsWith ('[' :: kw) cs then
    match closerColon (cs.drop (kw.length + 1)) with
    | some r => some r
    | none => labelBare kw cs
  else if startsWith ('*' :: '*' :: kw) cs then
    match closerColon (cs.drop (kw.length + 2)) with
    | some r => some r
    | none => labelBare kw cs
  else labelBare kw cs
where
  labelBare (kw cs : List Char) : Option (List Char) :=
    if startsWith kw cs then closerColon (cs.drop kw.length) else none

/-- `re.search` of the label pattern: leftmost anchor position wins;
returns the remainder right after the colon. -/
def searchLabel (kw : List Char) : List Char → Option (List Char)
  | [] => none
  | c :: rest =>
    match labelHere kw (c :: rest) with
    | some r => some r
    | none => searchLabel kw rest

/-- The lookahead `(?=\s*(?:\[|\*\*|^)?kw2|$)` at a capture cut point:
any run of whitespace, an optional opener, then the stop keyword. -/
def stopsHere (kw2 cs : List Char) : Bool :=
  let cs1 := cs.dropWhile isPySpace
  startsWith ('[' :: kw2) cs1 || startsWith ('*' :: '*' :: kw2) cs1 ||
    startsWith kw2 cs1

/-- The lazy capture `(.*?)` extended minimally until the lookahead (or
the end of the string, the `$` alternative) succeeds. -/
def captureUntil (kw2 : List Char) : List Char → List Char
  | [] => []
  | c :: rest =>
    if stopsHere kw2 (c :: rest) then [] else c :: captureUntil kw2 rest

/-- Full field pattern with a stop keyword: label, `\s*`, then the lazy
capture bounded by the lookahead. -/
def extractField (kw stop cs : List Char) : Option String :=
  (searchLabel kw cs).map (fun rest =>
    String.mk (captureUntil stop (rest.dropWhile isPySpace)))

/-- The `預期成效` pattern: label, `\s*`, then the greedy `(.*)` to the
end of the (newline-free) string. -/
def extractToEnd (kw cs : List Char) : Option String :=
  (searchLabel kw cs).map (fun rest => String.mk (rest.dropWhile isPySpace))

/-- Outcome of processing one block: a label regex that found nothing
(line 288's check), a `ValidationError` from the constructor (line 300),
or a built item. -/
inductive BlockOutcome where
  | missing : BlockOutcome
  | invalid (e : String) : BlockOutcome
  | ok (item : OptimizationItem) : BlockOutcome

/-- Lines 278-301 of the source, for one block: flatten newlines to
spaces, run the three regexes, and construct the `OptimizationItem` from
the stripped captures. -/
def itemOfBlock (block : String) : BlockOutcome :=
  let clean := block.data.map (fun c => if c = '\n' then ' ' else c)
  match extractField kwTarget kwAction clean,
        extractField kwAction kwOutcome clean,
        extractToEnd kwOutcome clean with
  | some t, some a, some o =>
    match OptimizationItem.make (pyStrip t) (pyStrip a) (pyStrip o) with
    | .ok item => .ok item
    | .error e => .invalid e
  | _, _, _ => .missing

/-- The per-block loop (index `i` only feeds the error messages). -/
def buildItems : Nat → List String → Except String (List OptimizationItem)
  | _, [] => .ok []
  | i, b :: rest =>
    match itemOfBlock b with
    | .missing =>
      .error ("第 " ++ toString (i + 1) ++
        " 點格式錯誤 (找不到關鍵字: 目標對象/行動方案/預期成效)")
    | .invalid e =>
      .error ("第 " ++ toString (i + 1) ++ " 點數據驗證失敗: " ++ e)
    | .ok item => (buildItems (i + 1) rest).map (fun items => item :: items)

/-- The count-gate message of line 274. -/
def countMsg : String := "建議數量需為 3~5 點"

/-- `OptimizationAgent._parse_and_validate`: the Python pair
`(False, msg)` is `.error msg` and `(True, items)` is `.ok items`. -/
def parseAndValidate (text : String) : Except String (List OptimizationItem) :=
  let blocks := splitBlocks text
  if 3 ≤ blocks.length ∧ blocks.length ≤ 5 then buildItems 0 blocks
  else .error countMsg

-- =========================
-- Prompts of agent_service (lines 111-114, 137-157, 210-235)
-- =========================

def optSysPrompt : String :=
  "你是一位資深成效型廣告優化專家。\n建議必須包含：目標對象、行動方案、預期成效。\n嚴禁模糊建議。"

/-- The user prompt built inside each attempt of `OptimizationAgent.run`
(lines 149-157): the fixed output contract followed by the upstream
analysis text.  Note that it does not mention `last_error_hint`. -/
def optUserPrompt (analysisText : String) : String :=
  "請提供 3~5 點優化建議。\n使用 Markdown 編號清單。\n每點需包含：\n- 目標對象:\n- 行動方案:\n- 預期成效:\n\n"
    ++ analysisText

/-- The grading prompt of `_evaluate_quality` (lines 210-235); it
instructs the grader to answer with a JSON object that carries a nested
`breakdown` object. -/
def evalPrompt (analysisSource generatedContent : String) : String :=
  "### 任務描述\n你是一位嚴格的廣告成效稽核員。請對照「原始分析資料」評核「生成的建議」，並嚴格執行以下計分權重：\n\n"
    ++ "### 評分標準 (總分 100):\n1. **事實忠實度 (50%)**: \n   - 內容必須完全根據原始分析。每出現一個原始資料未提及的數據或虛構事實，扣 20 分。\n   - 若關鍵事實錯誤，此項直接計 0 分。\n2. **執行具體性 (30%)**: \n   - 必須包含「目標對象、行動方案、預期成效」。缺一項扣 10 分。\n3. **邏輯連貫性 (20%)**: \n   - 建議是否能解決原始分析中提到的問題？邏輯鬆散或空洞扣 10-20 分。\n\n"
    ++ "### 輸入內容\n[原始分析資料]: " ++ analysisSource
    ++ "\n[待評核建議]: " ++ generatedContent ++ "\n\n"
    ++ "### 輸出要求\n請先在心中進行推理，最後僅回傳 JSON 格式：\n\x7b\n  \"score\": <int>,\n  \"breakdown\": \x7b\"faithfulness\": int, \"concreteness\": int, \"logic\": int\x7d,\n  \"critique\": \"<簡短精確的扣分原因>\",\n  \"hallucination_detected\": <bool>\n\x7d"

-- =========================
-- OptimizationAgent.run (lines 133-201)
-- =========================

/-- Which of the two `client.generate` call sites a recorded call came
from. -/
inductive CallKind where
  | generation : CallKind
  | grading : CallKind
deriving Repr, DecidableEq

/-- One observed `client.generate` invocation (the observable effect on
the LanguageModelPort collaborator). -/
structure LLMCall where
  kind : CallKind
  system : String
  user : String
  temperature : ℚ
  maxTokens : Nat
deriving Repr, DecidableEq

/-- `temperature=0.3 + attempt * 0.1` of line 162, over ℚ. -/
def attemptTemp (attempt : Nat) : ℚ := 3 / 10 + attempt * (1 / 10)

/-- The dict returned by `OptimizationAgent.run`; `evaluation` and
`fail_reason` are `Option` because the success and exhaustion dicts carry
different keys. -/
structure OptResult where
  suggestions : String
  structuredData : List OptimizationItem
  evaluation : Option QualityEvaluation
  verified : Bool
  failReason : Option String
deriving Repr, DecidableEq

/-- The stage's result together with the trace of client calls it issued
and the next global call index. -/
structure OptRun where
  result : OptResult
  calls : List LLMCall
  nextIdx : Nat
deriving Repr, DecidableEq

/-- `_evaluate_quality` given the grader call's outcome: its `try` also
covers the `client.generate` call, so a transport error lands in the
fallback as well. -/
def evaluateQuality (resp : Except String String) : QualityEvaluation :=
  match resp with
  | .error _ => fallbackEval
  | .ok out => evalFromRaw out

/-- The retry loop of `OptimizationAgent.run` (lines 147-201): `left`
counts the remaining attempts (starting from `max_retries = 3`),
`attempt` the 0-based attempt number, `idx` the global client-call index,
`finalMd`/`hint` the loop-carried `final_markdown`/`last_error_hint`.
The per-attempt `except` catches the generation transport error. -/
def optLoop (client : Nat → Except String String) (analysis : String) :
    Nat → Nat → Nat → String → String → OptRun
  | 0, _, idx, finalMd, hint =>
    ⟨⟨finalMd, [], none, false, some hint⟩, [], idx⟩
  | left + 1, attempt, idx, finalMd, _hint =>
    let gcall : LLMCall :=
      ⟨.generation, optSysPrompt, optUserPrompt analysis, attemptTemp attempt, 1024⟩
    match client idx with
    | .error e =>
      let r := optLoop client analysis left (attempt + 1) (idx + 1) finalMd e
      ⟨r.result, gcall :: r.calls, r.nextIdx⟩
    | .ok out =>
      match parseAndValidate out with
      | .error msg =>
        let r := optLoop client analysis left (attempt + 1) (idx + 1) out msg
        ⟨r.result, gcall :: r.calls, r.nextIdx⟩
      | .ok items =>
        let ecall : LLMCall :=
          ⟨.grading, "你是嚴格審核員。", evalPrompt analysis out, 1 / 10, 512⟩
        let ev := evaluateQuality (client (idx + 1))
        if ev.passed then
          ⟨⟨out, items, some ev, true, none⟩, [gcall, ecall], idx + 2⟩
        else
          let r := optLoop client analysis left (attempt + 1) (idx + 2) out ev.critique
          ⟨r.result, gcall :: ecall :: r.calls, r.nextIdx⟩

/-- `OptimizationAgent.run`: three attempts, starting with empty
`final_markdown` and `last_error_hint`; `startIdx` is the index of the
next call on the shared client. -/
def OptimizationAgent.run (client : Nat → Except String String)
    (analysis : String) (startIdx : Nat) : OptRun :=
  optLoop client analysis 3 0 startIdx "" ""

-- =========================
-- AnalysisAgent.run (lines 101-123)
-- =========================

structure AnalysisResult where
  analysis : String
deriving Repr, DecidableEq

/-- The templated analysis prompt of lines 111-114. -/
def analysisUserPrompt (dataSummary : String) : String :=
  "以下是廣告數據摘要：\n" ++ dataSummary ++
    "\n\n請指出表現最好與最差的 campaign 並簡要說明原因。"

/-- `AnalysisAgent.run`: `resp` is the LanguageModelPort's reply to
`analysisUserPrompt dataSummary`.  The method body has no `try/except`,
so a transport error (`.error`) passes through unhandled; on an empty
summary the client is never consulted. -/
def AnalysisAgent.run (resp : Except String String) (dataSummary : String) :
    Except String AnalysisResult :=
  if dataSummary = "" then .ok ⟨"無數據可分析"⟩
  else resp.map (fun out => ⟨out⟩)

-- =========================
-- DataAgent.run (lines 44-94)
-- =========================

/-- One CSV row after `pd.to_datetime(..., errors="coerce")`: dates are
modelled as already-parsed ordinals, `none` standing for NaT. -/
structure AdRow where
  campaign : String
  date : Option Int
  impressions : ℚ
  clicks : ℚ
  conversions : ℚ
  spend : ℚ
deriving Repr, DecidableEq

/-- One row of the aggregated frame after lines 68-82. -/
structure AggRow where
  campaign : String
  impressions : ℚ
  clicks : ℚ
  conversions : ℚ
  spend : ℚ
  ctr : ℚ
  cpc : ℚ
  cpa : ℚ
deriving Repr, DecidableEq

def sumBy (f : AdRow → ℚ) (rows : List AdRow) : ℚ := (rows.map f).sum

/-- The rows of one `groupby("campaign_name")` group. -/
def groupOf (rows : List AdRow) (c : String) : List AdRow :=
  rows.filter (fun r => r.campaign = c)

/-- The group keys.  pandas emits them sorted; only their order differs
from first-appearance order, and no claim depends on row order. -/
def campaignNames (rows : List AdRow) : List String :=
  (rows.map (fun r => r.campaign)).eraseDup

/-- Lines 68-82 for one group: sum the four metrics, then derive the
ratio columns with each denominator clipped from below at 1. -/
def aggregateRow (rows : List AdRow) (c : String) : AggRow :=
  let g := groupOf rows c
  let i := sumBy (fun r => r.impressions) g
  let k := sumBy (fun r => r.clicks) g
  let v := sumBy (fun r => r.conversions) g
  let s := sumBy (fun r => r.spend) g
  ⟨c, i, k, v, s, k / max i 1, s / max k 1, s / max v 1⟩

/-- The whole aggregated frame. -/
def aggregate (rows : List AdRow) : List AggRow :=
  (campaignNames rows).map (aggregateRow rows)

/-- Modelled from the spec: the rejected alternative computation called
"mean of per-row ratios" (spec sections 4.1 and 8), stated only to be
contrasted with the totals-based `aggregateRow`. -/
def perRowMeanCtr (rows : List AdRow) (c : String) : ℚ :=
  let g := groupOf rows c
  ((g.map (fun r => r.clicks / max r.impressions 1)).sum) / g.length

/-- Lines 62-65: inclusive date filtering; a NaT date compares false and
is dropped by either active bound.  Blank date strings were normalized to
`none` by the request validator. -/
def filterByDates (dateStart dateEnd : Option Int) (rows : List AdRow) :
    List AdRow :=
  let r1 := match dateStart with
    | some d => rows.filter (fun r => match r.date with
        | some t => decide (d ≤ t)
        | none => false)
    | none => rows
  match dateEnd with
  | some d => r1.filter (fun r => match r.date with
      | some t => decide (t ≤ d)
      | none => false)
  | none => r1

/-- The dict returned by `DataAgent.run`. -/
structure DataResult where
  summary : String
  error : Option String
  verified : Bool
deriving Repr, DecidableEq

/-- `e.errors()[0]["msg"]` for the `ValueError` that
`AgentTaskRequest.check_task_not_empty` raises, as pydantic renders it. -/
def taskEmptyMsg : String := "Value error, 任務內容 (task) 不能為空或僅包含空白"

/-- `DataAgent.run`: request validation first (an empty or all-whitespace
task aborts before any data access), then the body under `try`; `src` is
the tabular data source (an `.error` is any read/parse exception) and
`render` is pandas' `to_markdown`, an external collaborator. -/
def DataAgent.run (render : List AggRow → String)
    (src : Except String (List AdRow)) (task : String)
    (dateStart dateEnd : Option Int) : DataResult :=
  if pyStrip task = "" then ⟨"數據讀取任務中止", some taskEmptyMsg, false⟩
  else
    match src with
    | .error e => ⟨"系統執行錯誤", some e, false⟩
    | .ok rows =>
      ⟨render (aggregate (filterByDates dateStart dateEnd rows)), none, true⟩

-- =========================
-- AgentOrchestrator.run_flow (lines 312-387)
-- =========================

/-- The `raw_output` payload attached to a step. -/
inductive StageRaw where
  | data (r : DataResult) : StageRaw
  | analysis (r : AnalysisResult) : StageRaw
  | opt (r : OptResult) : StageRaw
deriving Repr, DecidableEq

/-- The stage output text whose truncation becomes the step summary. -/
def StageRaw.outputText : StageRaw → String
  | .data r => r.summary
  | .analysis r => r.analysis
  | .opt r => r.suggestions

structure AgentStepResult where
  name : String
  summary : String
  raw : StageRaw
deriving Repr, DecidableEq

structure AgentRunResponse where
  dataSummary : String
  analysisInsights : String
  optimizationSuggestions : String
  steps : List AgentStepResult
deriving Repr, DecidableEq

/-- `AgentOrchestrator.run_flow`: DataAgent, then (unless the data stage
is unverified) AnalysisAgent and OptimizationAgent on the one shared
client, appending one step per invoked stage with a 200-character summary
preview.  `run_flow` itself has no `try/except`, so an `.error` escaping
AnalysisAgent escapes the orchestrator as well. -/
def AgentOrchestrator.runFlow (render : List AggRow → String)
    (src : Except String (List AdRow)) (client : Nat → Except String String)
    (task : String) (dateStart dateEnd : Option Int) :
    Except String AgentRunResponse :=
  let dres := DataAgent.run render src task dateStart dateEnd
  let step1 : AgentStepResult := ⟨"DataAgent", pyTake 200 dres.summary, .data dres⟩
  if !dres.verified then .ok ⟨"任務失敗", "", "", [step1]⟩
  else
    match AnalysisAgent.run (client 0) dres.summary with
    | .error e => .error e
    | .ok ares =>
      let step2 : AgentStepResult :=
        ⟨"AnalysisAgent", pyTake 200 ares.analysis, .analysis ares⟩
      let nextIdx := if dres.summary = "" then 0 else 1
      let orun := OptimizationAgent.run client ares.analysis nextIdx
      let step3 : AgentStepResult :=
        ⟨"OptimizationAgent", pyTake 200 orun.result.suggestions, .opt orun.result⟩
      if !orun.result.verified then
        .ok ⟨dres.summary, ares.analysis, "優化建議生成失敗", [step1, step2, step3]⟩
      else
        .ok ⟨dres.summary, ares.analysis, orun.result.suggestions,
          [step1, step2, step3]⟩

-- =========================
-- Auxiliary executable definitions used by the claim statements
-- =========================

/-- Substring occurrence test (the natural reading of a prompt
"including" a piece of text). -/
def occursIn (pat s : String) : Bool :=
  (List.range (s.length + 1)).any (fun i => startsWith pat.data (s.data.drop i))

/-- A block is well formed when field extraction and item validation both
succeed on it. -/
def blockOk (b : String) : Bool :=
  match itemOfBlock b with
  | .ok _ => true
  | _ => false

-- =========================
-- Concrete fixtures used by counterexamples and witnesses
-- =========================

/-- A client whose every generation is the same unparsable text. -/
def clientHello : Nat → Except String String := fun _ => .ok "hello"

/-- A grader reply written exactly in the format that `evalPrompt`
instructs, nested `breakdown` object included. -/
def instructedFormatReply : String :=
  "\x7b\n  \"score\": 95,\n  \"breakdown\": \x7b\"faithfulness\": 50, \"concreteness\": 30, \"logic\": 15\x7d,\n  \"critique\": \"符合分析\",\n  \"hallucination_detected\": false\n\x7d"

/-- Four well-formed numbered suggestion blocks. -/
def text4 : String :=
  "1. 目標對象: 甲客群 行動方案: 提高出價一成 預期成效: CTR提升\n2. 目標對象: 乙客群 行動方案: 降低出價一成 預期成效: CPA下降\n3. 目標對象: 丙客群 行動方案: 更換素材文案 預期成效: 轉換提升\n4. 目標對象: 丁客群 行動方案: 暫停低效廣告 預期成效: 花費下降"

/-- Two well-formed numbered suggestion blocks. -/
def text2 : String :=
  "1. 目標對象: 甲 行動方案: 提高出價 預期成效: 上升\n2. 目標對象: 乙 行動方案: 降低出價 預期成效: 下降"

/-- Six numbered blocks. -/
def text6 : String := "1. a\n2. b\n3. c\n4. d\n5. e\n6. f"

/-- Two rows of one campaign on which averaging per-row click-through
rates diverges from the totals-based rate. -/
def rowsTwo : List AdRow :=
  [⟨"A", none, 100, 10, 1, 1⟩, ⟨"A", none, 1000, 10, 1, 1⟩]

/-- A table renderer stub standing in for pandas `to_markdown`. -/
def renderFixed : List AggRow → String := fun _ => "摘要表"

/-- A client that answers the analysis call and then only unparsable
text. -/
def clientC9 : Nat → Except String String :=
  fun n => if n = 0 then .ok "分析結果" else .ok "junk"

-- =========================
-- Helper lemmas
-- =========================

theorem checkField_deny (n : Nat) (x : String)
    (h : invalidKeywords.contains (pyLower (pyStrip x)) = true) :
    ∃ e, checkField n x = .error e := by
  unfold checkField
  split
  · exact ⟨_, rfl⟩
  · rw [if_pos h]
    exact ⟨_, rfl⟩

theorem checkField_ok (n : Nat) (x : String) (hlen : n ≤ x.length)
    (hd : invalidKeywords.contains (pyLower (pyStrip x)) = false) :
    checkField n x = .ok (pyStrip x) := by
  unfold checkField
  rw [if_neg (by omega), if_neg (by rw [hd]; simp)]

theorem optLoop_generation_prompts (client : Nat → Except String String)
    (analysis : String) :
    ∀ left attempt idx fm h c,
      c ∈ (optLoop client analysis left attempt idx fm h).calls →
      c.kind = .generation →
      c.user = optUserPrompt analysis ∧ c.system = optSysPrompt := by
  intro left
  induction left with
  | zero =>
    intro attempt idx fm h c hc
    simp [optLoop] at hc
  | succ n ih =>
    intro attempt idx fm h c hc hk
    simp only [optLoop] at hc
    cases hcl : client idx with
    | error e =>
      rw [hcl] at hc
      simp only [List.mem_cons] at hc
      rcases hc with rfl | hc
      · exact ⟨rfl, rfl⟩
      · exact ih _ _ _ _ _ hc hk
    | ok out =>
      rw [hcl] at hc
      simp only [] at hc
      cases hp : parseAndValidate out with
      | error msg =>
        rw [hp] at hc
        simp only [List.mem_cons] at hc
        rcases hc with rfl | hc
        · exact ⟨rfl, rfl⟩
        · exact ih _ _ _ _ _ hc hk
      | ok items =>
        rw [hp] at hc
        simp only [] at hc
        by_cases hev : (evaluateQuality (client (idx + 1))).passed
        · rw [if_pos hev] at hc
          simp only [List.mem_cons, List.mem_singleton] at hc
          rcases hc with rfl | rfl | h
          · exact ⟨rfl, rfl⟩
          · simp at hk
          · exact absurd h (List.not_mem_nil _)
        · rw [if_neg hev] at hc
          simp only [List.mem_cons] at hc
          rcases hc with rfl | rfl | hc
          · exact ⟨rfl, rfl⟩
          · simp at hk
          · exact ih _ _ _ _ _ hc hk

theorem buildItems_ok : ∀ (bs : List String) (i : Nat),
    (∀ b ∈ bs, blockOk b = true) →
    ∃ items, buildItems i bs = .ok items ∧ items.length = bs.length := by
  intro bs
  induction bs with
  | nil => intro i _; exact ⟨[], rfl, rfl⟩
  | cons b rest ih =>
    intro i hwf
    have hb := hwf b (List.mem_cons_self _ _)
    obtain ⟨items, hi, hlen⟩ := ih (i + 1) (fun x hx => hwf x (List.mem_cons_of_mem _ hx))
    cases hib : itemOfBlock b with
    | missing => rw [blockOk, hib] at hb; exact absurd hb (by simp)
    | invalid e => rw [blockOk, hib] at hb; exact absurd hb (by simp)
    | ok item =>
      refine ⟨item :: items, ?_, by simp [hlen]⟩
      simp only [buildItems, hib, hi]
      rfl

theorem pyTake_length_le (n : Nat) (s : String) : (pyTake n s).length ≤ n := by
  show (s.data.take n).length ≤ n
  simp [List.length_take]

-- =========================
-- C1 — feedback-guided regeneration
-- =========================

/-- C1, counterexample: in a run whose first attempt was rejected for the
block-count reason, the second attempt's user prompt is the same fixed
prompt as the first and does not include the rejection reason anywhere —
contradicting the claim that every attempt after a failed one carries a
correction block describing why the previous attempt was rejected. -/
theorem retry_prompt_lacks_correction_counterexample :
    parseAndValidate "hello" = .error countMsg ∧
    (OptimizationAgent.run clientHello "近期分析" 0).calls.map (fun c => c.user) =
      [optUserPrompt "近期分析", optUserPrompt "近期分析", optUserPrompt "近期分析"] ∧
    occursIn countMsg (optUserPrompt "近期分析") = false := by decide

/-- C1, amended: every generation call of OptimizationStage — first or
retry — sends exactly the fixed output contract followed by the upstream
analysis text; the rejection reason of a failed attempt is retained only
as the eventual `fail_reason` and is never appended to any prompt. -/
theorem generation_prompt_fixed_contract (client : Nat → Except String String)
    (analysis : String) (startIdx : Nat) :
    ∀ c ∈ (OptimizationAgent.run client analysis startIdx).calls,
      c.kind = .generation →
      c.user = optUserPrompt analysis ∧ c.system = optSysPrompt := fun c hc hk =>
  optLoop_generation_prompts client analysis 3 0 startIdx "" "" c hc hk

/-- Witness for C1's amended theorem at a concrete failing run. -/
theorem generation_prompt_fixed_contract_witness :
    (⟨.generation, optSysPrompt, optUserPrompt "近期分析", attemptTemp 1, 1024⟩ : LLMCall).user
        = optUserPrompt "近期分析" ∧
    (⟨.generation, optSysPrompt, optUserPrompt "近期分析", attemptTemp 1, 1024⟩ : LLMCall).system
        = optSysPrompt :=
  generation_prompt_fixed_contract clientHello "近期分析" 0
    ⟨.generation, optSysPrompt, optUserPrompt "近期分析", attemptTemp 1, 1024⟩
    (List.mem_cons.mpr (Or.inr (List.mem_cons_self _ _)))
    rfl

-- =========================
-- C2 — exhaustion after exactly three attempts
-- =========================

/-- C2: when every generation returns text that fails structural parsing,
OptimizationStage makes exactly 3 generation calls — never fewer, never
more — and returns the last generated text, an empty structured list,
`verified = false` and the last failure reason, as a plain result record
(no fault escapes the stage). -/
theorem opt_exhaustion_three_attempts (client : Nat → Except String String)
    (analysis : String) (k : Nat)
    (hok : ∀ n, ∃ s, client n = .ok s)
    (hfail : ∀ n s, client n = .ok s → ∃ e, parseAndValidate s = .error e) :
    ∃ s2 e2, client (k + 2) = .ok s2 ∧ parseAndValidate s2 = .error e2 ∧
      OptimizationAgent.run client analysis k =
        ⟨⟨s2, [], none, false, some e2⟩,
         [⟨.generation, optSysPrompt, optUserPrompt analysis, attemptTemp 0, 1024⟩,
          ⟨.generation, optSysPrompt, optUserPrompt analysis, attemptTemp 1, 1024⟩,
          ⟨.generation, optSysPrompt, optUserPrompt analysis, attemptTemp 2, 1024⟩],
         k + 3⟩ := by
  obtain ⟨s0, h0⟩ := hok k
  obtain ⟨e0, p0⟩ := hfail k s0 h0
  obtain ⟨s1, h1⟩ := hok (k + 1)
  obtain ⟨e1, p1⟩ := hfail (k + 1) s1 h1
  obtain ⟨s2, h2⟩ := hok (k + 1 + 1)
  obtain ⟨e2, p2⟩ := hfail (k + 1 + 1) s2 h2
  refine ⟨s2, e2, h2, p2, ?_⟩
  unfold OptimizationAgent.run
  simp only [optLoop, h0, p0, h1, p1, h2, p2]

/-- Witness for C2 with an always-unparsable client. -/
theorem opt_exhaustion_three_attempts_witness :
    (OptimizationAgent.run clientHello "近期分析" 0).result.verified = false ∧
    (OptimizationAgent.run clientHello "近期分析" 0).result.structuredData = [] ∧
    (OptimizationAgent.run clientHello "近期分析" 0).calls.length = 3 := by
  obtain ⟨s2, e2, h2, p2, hrun⟩ := opt_exhaustion_three_attempts clientHello "近期分析" 0
    (fun _ => ⟨"hello", rfl⟩)
    (fun _ s hs => (Except.ok.inj hs) ▸ ⟨countMsg, by decide⟩)
  rw [hrun]
  exact ⟨rfl, rfl, rfl⟩

-- =========================
-- C3 — error containment per stage
-- =========================

/-- C3, counterexample: a transport error raised by the language-model
call during AnalysisStage propagates out of the stage as an unhandled
fault instead of being turned into a result record. -/
theorem analysis_stage_fault_escape_counterexample :
    AnalysisAgent.run (Except.error "connection error") "數據摘要" =
      Except.error "connection error" := rfl

/-- C3, amended: DataStage turns a data-access fault into a record with
`verified = false` and the error text; OptimizationStage turns per-attempt
transport errors into an exhausted record with the last error as
`fail_reason`; but AnalysisStage, which has no handler, lets a transport
error escape unhandled (and its result carries no success flag at all). -/
theorem stage_error_containment_amended :
    (∀ (render : List AggRow → String) (task : String) (ds de : Option Int) (e : String),
        ¬ pyStrip task = "" →
        DataAgent.run render (.error e) task ds de = ⟨"系統執行錯誤", some e, false⟩) ∧
    (∀ (analysis : String) (k : Nat) (e : String),
        (OptimizationAgent.run (fun _ => .error e) analysis k).result =
          ⟨"", [], none, false, some e⟩) ∧
    (∀ (e s : String), ¬ s = "" → AnalysisAgent.run (.error e) s = .error e) := by
  refine ⟨?_, ?_, ?_⟩
  · intro render task ds de e ht
    unfold DataAgent.run
    rw [if_neg ht]
  · intro analysis k e
    unfold OptimizationAgent.run
    simp [optLoop]
  · intro e s hs
    unfold AnalysisAgent.run
    rw [if_neg hs]
    rfl

/-- Witness for C3's amended theorem at concrete faults. -/
theorem stage_error_containment_amended_witness :
    DataAgent.run (fun _ => "表格") (Except.error "讀檔失敗") "分析任務" none none =
      ⟨"系統執行錯誤", some "讀檔失敗", false⟩ ∧
    (OptimizationAgent.run (fun _ => Except.error "超時") "分析" 0).result =
      ⟨"", [], none, false, some "超時"⟩ ∧
    AnalysisAgent.run (Except.error "斷線") "摘要" = Except.error "斷線" :=
  ⟨stage_error_containment_amended.1 (fun _ => "表格") "分析任務" none none "讀檔失敗"
      (by decide),
   stage_error_containment_amended.2.1 "分析" 0 "超時",
   stage_error_containment_amended.2.2 "斷線" "摘要" (by decide)⟩

-- =========================
-- C4 — quality-gate JSON extraction
-- =========================

set_option maxRecDepth 4000 in
/-- C4: the quality gate parses a flat JSON reply — with or without
leading prose — and applies the `score >= 80` boundary (80 passes, 79
fails); but on a reply in exactly the format its own prompt instructs,
whose `breakdown` object nests braces, the lazy brace-to-brace extraction
cuts an unbalanced fragment, JSON parsing fails, and the stage falls back
to `score = 0`, the fixed unparsable-evaluation critique and
`passed = false` — contradicting the claimed behavior on the instructed
format. -/
theorem quality_gate_nested_breakdown_bug :
    evalFromRaw "\x7b\"score\": 80, \"critique\": \"ok\"\x7d" = ⟨80, "ok", true⟩ ∧
    evalFromRaw "\x7b\"score\": 79, \"critique\": \"ok\"\x7d" = ⟨79, "ok", false⟩ ∧
    evalFromRaw "評分如下 \x7b\"score\": 85, \"critique\": \"良好\"\x7d" = ⟨85, "良好", true⟩ ∧
    evalFromRaw instructedFormatReply = fallbackEval := by decide

-- =========================
-- C5 — block-count gate of the structural parser
-- =========================

/-- C5: splitting the generated text into numbered blocks, any text with
2 or 6 blocks is rejected with the count-related reason, while any text
with exactly 4 well-formed blocks parses into exactly 4 suggestion
items. -/
theorem parse_block_count_gate :
    (∀ text, (splitBlocks text).length = 2 ∨ (splitBlocks text).length = 6 →
      parseAndValidate text = .error countMsg) ∧
    (∀ text, (splitBlocks text).length = 4 →
      (∀ b ∈ splitBlocks text, blockOk b = true) →
      ∃ items, parseAndValidate text = .ok items ∧ items.length = 4) := by
  constructor
  · intro text h
    simp only [parseAndValidate]
    rcases h with h | h <;> rw [h] <;> rw [if_neg (by omega)]
  · intro text h4 hwf
    obtain ⟨items, hi, hlen⟩ := buildItems_ok (splitBlocks text) 0 hwf
    refine ⟨items, ?_, by rw [hlen, h4]⟩
    simp only [parseAndValidate]
    rw [h4, if_pos (by omega)]
    exact hi

set_option maxRecDepth 8000 in
/-- Witness for C5 on concrete 2-, 4- and 6-block texts. -/
theorem parse_block_count_gate_witness :
    parseAndValidate text2 = .error countMsg ∧
    parseAndValidate text6 = .error countMsg ∧
    (parseAndValidate text4).toOption.map List.length = some 4 := by
  refine ⟨parse_block_count_gate.1 text2 (Or.inl (by decide)),
          parse_block_count_gate.1 text6 (Or.inr (by decide)), ?_⟩
  obtain ⟨items, hi, hlen⟩ := parse_block_count_gate.2 text4 (by decide) (by decide)
  rw [hi]
  simp [Except.toOption, hlen]

-- =========================
-- C6 — SuggestionItem content validation
-- =========================

/-- C6, counterexample: construction accepts a target of raw length 3
whose trimmed, stored value has length 1 — the minimum length is enforced
on the pre-trim value, so the stored field does not satisfy the claimed
`target >= 2` bound. -/
theorem item_min_length_pretrim_counterexample :
    OptimizationItem.make " a " "abcde" "ok" = .ok ⟨"a", "abcde", "ok"⟩ ∧
    ("a" : String).length < 2 := by decide

/-- C6, amended: construction rejects any field whose trimmed,
case-insensitive value is a denylisted placeholder, and accepts
otherwise-valid content storing the trimmed fields; the minimum lengths
(target 2, action 5, outcome 2) are checked on the raw, untrimmed input,
so a stored field may be shorter than its minimum. -/
theorem item_validation_amended :
    (∀ t a o, (invalidKeywords.contains (pyLower (pyStrip t)) = true
        ∨ invalidKeywords.contains (pyLower (pyStrip a)) = true
        ∨ invalidKeywords.contains (pyLower (pyStrip o)) = true) →
      (OptimizationItem.make t a o).toOption = none) ∧
    (∀ t a o, 2 ≤ t.length → 5 ≤ a.length → 2 ≤ o.length →
      invalidKeywords.contains (pyLower (pyStrip t)) = false →
      invalidKeywords.contains (pyLower (pyStrip a)) = false →
      invalidKeywords.contains (pyLower (pyStrip o)) = false →
      OptimizationItem.make t a o = .ok ⟨pyStrip t, pyStrip a, pyStrip o⟩) := by
  constructor
  · intro t a o hdeny
    rcases hdeny with h | h | h
    · obtain ⟨e, he⟩ := checkField_deny 2 t h
      simp only [OptimizationItem.make, he]
      rfl
    · obtain ⟨e, he⟩ := checkField_deny 5 a h
      cases hct : checkField 2 t with
      | error e1 =>
        simp only [OptimizationItem.make, hct]
        rfl
      | ok t1 =>
        simp only [OptimizationItem.make, hct, he]
        rfl
    · obtain ⟨e, he⟩ := checkField_deny 2 o h
      cases hct : checkField 2 t with
      | error e1 =>
        simp only [OptimizationItem.make, hct]
        rfl
      | ok t1 =>
        cases hca : checkField 5 a with
        | error e2 =>
          simp only [OptimizationItem.make, hct, hca]
          rfl
        | ok a1 =>
          simp only [OptimizationItem.make, hct, hca, he]
          rfl
  · intro t a o ht ha ho dt da dd
    rw [OptimizationItem.make, checkField_ok 2 t ht dt, checkField_ok 5 a ha da,
      checkField_ok 2 o ho dd]
    rfl

/-- Witness for C6's amended theorem: a denylisted action is rejected,
and valid padded fields are accepted and stored trimmed. -/
theorem item_validation_amended_witness :
    (OptimizationItem.make "廣告A" "n/a" "CTR上升").toOption = none ∧
    OptimizationItem.make "廣告A " " 降低出價一成 " "CTR上升" =
      .ok ⟨"廣告A", "降低出價一成", "CTR上升"⟩ :=
  ⟨item_validation_amended.1 "廣告A" "n/a" "CTR上升" (Or.inr (Or.inl (by decide))),
   item_validation_amended.2 "廣告A " " 降低出價一成 " "CTR上升"
     (by decide) (by decide) (by decide) (by decide) (by decide) (by decide)⟩

-- =========================
-- C7 — ratios from summed totals
-- =========================

/-- C7: every row of the aggregated frame carries the per-entity sums of
the four metrics, and its ctr/cpc/cpa are computed from those summed
totals with each denominator floored at 1 (hence positive, so no division
by zero); and the totals-based computation is not the mean of per-row
ratios, which differs from it on a two-row fixture. -/
theorem aggregate_ratios_from_totals :
    (∀ rows r, r ∈ aggregate rows →
      r.impressions = sumBy (fun x => x.impressions) (groupOf rows r.campaign) ∧
      r.clicks = sumBy (fun x => x.clicks) (groupOf rows r.campaign) ∧
      r.conversions = sumBy (fun x => x.conversions) (groupOf rows r.campaign) ∧
      r.spend = sumBy (fun x => x.spend) (groupOf rows r.campaign) ∧
      r.ctr = r.clicks / max r.impressions 1 ∧
      r.cpc = r.spend / max r.clicks 1 ∧
      r.cpa = r.spend / max r.conversions 1 ∧
      0 < max r.impressions 1 ∧ 0 < max r.clicks 1 ∧ 0 < max r.conversions 1) ∧
    (∃ rows c, (aggregateRow rows c).ctr ≠ perRowMeanCtr rows c) := by
  constructor
  · intro rows r hr
    obtain ⟨c, hc, rfl⟩ := List.mem_map.mp hr
    exact ⟨rfl, rfl, rfl, rfl, rfl, rfl, rfl,
      lt_of_lt_of_le one_pos (le_max_right _ _),
      lt_of_lt_of_le one_pos (le_max_right _ _),
      lt_of_lt_of_le one_pos (le_max_right _ _)⟩
  · refine ⟨rowsTwo, "A", ?_⟩
    simp [aggregateRow, perRowMeanCtr, groupOf, sumBy, rowsTwo, List.filter]
    norm_num

/-- Witness for C7 on the two-row fixture. -/
theorem aggregate_ratios_from_totals_witness :
    (aggregateRow rowsTwo "A").ctr =
      (aggregateRow rowsTwo "A").clicks / max (aggregateRow rowsTwo "A").impressions 1 ∧
    0 < max (aggregateRow rowsTwo "A").impressions 1 := by
  have h := aggregate_ratios_from_totals.1 rowsTwo (aggregateRow rowsTwo "A")
    (List.mem_map.mpr ⟨"A", by decide, rfl⟩)
  exact ⟨h.2.2.2.2.1, h.2.2.2.2.2.2.2.1⟩

-- =========================
-- C8 — empty task short-circuits the pipeline
-- =========================

/-- C8: for an empty or all-whitespace task, DataStage fails request
validation with `verified = false` before any data access (the result
does not depend on the data source), the orchestrator returns the fixed
task-failed marker with empty analysis and optimization fields, exactly
one StageResult is traced, and the later stages are never invoked (the
result does not depend on the client). -/
theorem empty_task_terminal_result (render : List AggRow → String)
    (src : Except String (List AdRow)) (client : Nat → Except String String)
    (task : String) (ds de : Option Int) (h : pyStrip task = "") :
    AgentOrchestrator.runFlow render src client task ds de =
      .ok ⟨"任務失敗", "", "",
        [⟨"DataAgent", "數據讀取任務中止",
          .data ⟨"數據讀取任務中止", some taskEmptyMsg, false⟩⟩]⟩ := by
  unfold AgentOrchestrator.runFlow DataAgent.run
  rw [if_pos h]
  rfl

/-- Witness for C8 at a whitespace-only task. -/
theorem empty_task_terminal_result_witness :
    AgentOrchestrator.runFlow (fun _ => "表格") (.ok []) (fun _ => .ok "回覆") "   " none none =
      .ok ⟨"任務失敗", "", "",
        [⟨"DataAgent", "數據讀取任務中止",
          .data ⟨"數據讀取任務中止", some taskEmptyMsg, false⟩⟩]⟩ :=
  empty_task_terminal_result (fun _ => "表格") (.ok []) (fun _ => .ok "回覆") "   " none none
    (by decide)

-- =========================
-- C9 — optimization failure keeps upstream fields
-- =========================

/-- C9: when DataStage and AnalysisStage succeed but OptimizationStage
ends unverified, the final response carries the data summary and analysis
text unchanged, replaces only the optimization field with the fixed
failure marker, and traces exactly one StageResult per invoked stage,
three in total, in execution order. -/
theorem opt_failure_preserves_upstream_fields
    (render : List AggRow → String) (src : Except String (List AdRow))
    (client : Nat → Except String String) (task : String) (ds de : Option Int)
    (ares : AnalysisResult)
    (hdata : (DataAgent.run render src task ds de).verified = true)
    (hana : AnalysisAgent.run (client 0) (DataAgent.run render src task ds de).summary =
      .ok ares)
    (hopt : (OptimizationAgent.run client ares.analysis
        (if (DataAgent.run render src task ds de).summary = "" then 0 else 1)).result.verified
      = false) :
    AgentOrchestrator.runFlow render src client task ds de = .ok
      ⟨(DataAgent.run render src task ds de).summary, ares.analysis, "優化建議生成失敗",
       [⟨"DataAgent", pyTake 200 (DataAgent.run render src task ds de).summary,
          .data (DataAgent.run render src task ds de)⟩,
        ⟨"AnalysisAgent", pyTake 200 ares.analysis, .analysis ares⟩,
        ⟨"OptimizationAgent",
          pyTake 200 (OptimizationAgent.run client ares.analysis
            (if (DataAgent.run render src task ds de).summary = "" then 0 else 1)).result.suggestions,
          .opt (OptimizationAgent.run client ares.analysis
            (if (DataAgent.run render src task ds de).summary = "" then 0 else 1)).result⟩]⟩ := by
  simp only [AgentOrchestrator.runFlow]
  rw [hdata, hana]
  simp only [Bool.not_true, Bool.false_eq_true, if_false]
  rw [hopt]
  simp only [Bool.not_false, if_true]

/-- Witness for C9: data and analysis succeed, every optimization attempt
fails structurally. -/
theorem opt_failure_preserves_upstream_fields_witness :
    AgentOrchestrator.runFlow renderFixed (.ok []) clientC9 "優化任務" none none = .ok
      ⟨"摘要表", "分析結果", "優化建議生成失敗",
       [⟨"DataAgent", "摘要表", .data ⟨"摘要表", none, true⟩⟩,
        ⟨"AnalysisAgent", "分析結果", .analysis ⟨"分析結果"⟩⟩,
        ⟨"OptimizationAgent", "junk",
          .opt ⟨"junk", [], none, false, some countMsg⟩⟩]⟩ := by
  have h := opt_failure_preserves_upstream_fields renderFixed (.ok []) clientC9 "優化任務"
    none none ⟨"分析結果"⟩ rfl rfl (by decide)
  exact h

-- =========================
-- C10 — step summaries are 200-character truncations
-- =========================

/-- C10: every StageResult the orchestrator appends has as its summary
the owning stage's output text truncated to the first 200 characters, so
its length never exceeds 200. -/
theorem step_summary_truncated_200
    (render : List AggRow → String) (src : Except String (List AdRow))
    (client : Nat → Except String String) (task : String) (ds de : Option Int)
    (resp : AgentRunResponse)
    (h : AgentOrchestrator.runFlow render src client task ds de = .ok resp) :
    ∀ step ∈ resp.steps,
      step.summary = pyTake 200 step.raw.outputText ∧ step.summary.length ≤ 200 := by
  simp only [AgentOrchestrator.runFlow] at h
  cases hv : (DataAgent.run render src task ds de).verified with
  | false =>
    rw [hv] at h
    simp only [Bool.not_false, if_true, Except.ok.injEq] at h
    subst h
    intro step hs
    fin_cases hs
    exact ⟨rfl, pyTake_length_le _ _⟩
  | true =>
    rw [hv] at h
    simp only [Bool.not_true, Bool.false_eq_true, if_false] at h
    cases han : AnalysisAgent.run (client 0) (DataAgent.run render src task ds de).summary with
    | error e => rw [han] at h; simp at h
    | ok ares =>
      rw [han] at h
      simp only [] at h
      cases hov : (OptimizationAgent.run client ares.analysis
          (if (DataAgent.run render src task ds de).summary = "" then 0 else 1)).result.verified with
      | false =>
        rw [hov] at h
        simp only [Bool.not_false, if_true, Except.ok.injEq] at h
        subst h
        intro step hs
        fin_cases hs <;> exact ⟨rfl, pyTake_length_le _ _⟩
      | true =>
        rw [hov] at h
        simp only [Bool.not_true, Bool.false_eq_true, if_false, Except.ok.injEq] at h
        subst h
        intro step hs
        fin_cases hs <;> exact ⟨rfl, pyTake_length_le _ _⟩

/-- Witness for C10 at a concrete run's single step. -/
theorem step_summary_truncated_200_witness :
    (⟨"DataAgent", "數據讀取任務中止",
        .data ⟨"數據讀取任務中止", some taskEmptyMsg, false⟩⟩ : AgentStepResult).summary =
      pyTake 200 (StageRaw.outputText (.data ⟨"數據讀取任務中止", some taskEmptyMsg, false⟩)) ∧
    (⟨"DataAgent", "數據讀取任務中止",
        .data ⟨"數據讀取任務中止", some taskEmptyMsg, false⟩⟩ : AgentStepResult).summary.length
      ≤ 200 := by
  have h := step_summary_truncated_200 renderFixed (.ok []) clientC9 " " none none
    ⟨"任務失敗", "", "",
      [⟨"DataAgent", "數據讀取任務中止",
        .data ⟨"數據讀取任務中止", some taskEmptyMsg, false⟩⟩]⟩ rfl
  exact h _ (List.mem_singleton.mpr rfl)

end AgentService
